import Mathlib

/-!
Shallow embedding of the email authentication assessment engine
(`analisador_cabecalho.py` and `email_auth_fix.py`).

Conventions of the embedding:
* Python strings are modelled as Lean `String` / `List Char`; the header
  analyzer's regex searches (`re.search`) are modelled operationally by
  left-to-right scanning functions that reproduce the leftmost-match /
  greedy / lazy semantics of each concrete pattern used by the source.
* Character classes follow Python's `re` over the ASCII range (the inputs
  the scripts process are ASCII header text): `\w` is alphanumeric or
  underscore, `\s` is the usual whitespace set.
* DNS resolution is the external collaborator boundary; a lookup outcome
  is passed in as `Except String (List String)` (error message, or the
  ordered answer strings `str(rdata)` including the surrounding quotes
  that `dnspython` prints for TXT data).
-/

namespace EmailAuthFix

/-! ## Character classes (Python `re`, ASCII range) -/

/-- Python regex `\w` over ASCII: alphanumeric or underscore. -/
def isWordChar (c : Char) : Bool := c.isAlphanum || c = '_'

/-- The character class `[\w.-]` used by the permissive e-mail address
pattern of `_extract_domain_from_email`. -/
def isWordDot (c : Char) : Bool := isWordChar c || c = '.' || c = '-'

/-- Python `\s` / `str.isspace` over ASCII. -/
def isPySpace (c : Char) : Bool :=
  c = ' ' || c = '\t' || c = '\n' || c = '\r' || c = '\x0b' || c = '\x0c'

/-- Python `str.lower` over ASCII. -/
def lowerChars (l : List Char) : List Char := l.map Char.toLower

/-- Python `str.strip()` (whitespace from both ends). -/
def pyStripL (l : List Char) : List Char :=
  ((l.dropWhile isPySpace).reverse.dropWhile isPySpace).reverse

/-- If `pat` is a literal prefix of `s`, return the remainder. -/
def dropLit : List Char → List Char → Option (List Char)
  | [], s => some s
  | _ :: _, [] => none
  | p :: ps, c :: cs => if p = c then dropLit ps cs else none

/-- Python `needle in hay` substring test. -/
def hasSub (needle : List Char) : List Char → Bool
  | [] => needle.isEmpty
  | c :: rest => needle.isPrefixOf (c :: rest) || hasSub needle rest

/-! ## Regex search primitives of `analisador_cabecalho.py`

Each `re.search` call in the source uses one of a handful of concrete
patterns; the functions below reproduce the engine's behaviour (scan the
start position left to right, greedy `+`, lazy `*?`, `.` not matching a
newline) for exactly those patterns. -/

/-- Attempt of `<pat>(\w+)` anchored at the start of `s` (`pat` is the
literal `mechanism=`): the capture is the maximal `\w` run, nonempty. -/
def mechResultAt (pat s : List Char) : Option (List Char) :=
  match dropLit pat s with
  | some r =>
    let tok := r.takeWhile isWordChar
    if tok = [] then none else some tok
  | none => none

/-- `re.search(r'<mech>=(\w+)', s)`: leftmost successful attempt. -/
def searchMechResult (pat : List Char) : List Char → Option (List Char)
  | [] => none
  | c :: rest =>
    match mechResultAt pat (c :: rest) with
    | some tok => some tok
    | none => searchMechResult pat rest

/-- The lazy tail `(.*?)\)` of the explanation patterns: the capture runs
to the first `')'`; `.` does not match a newline, so an intervening
newline (or end of input) fails the attempt. -/
def takeUntilClose : List Char → Option (List Char)
  | [] => none
  | c :: rest =>
    if c = ')' then some []
    else if c = '\n' then none
    else (takeUntilClose rest).map (c :: ·)

/-- Attempt of `<pat>\w+\s+\((.*?)\)` anchored at the start of `s`
(`pat` is the literal `mechanism=`).  The greedy `\w+` and `\s+` commit
to their maximal runs (backtracking them cannot expose the required
follow character). -/
def explanationAt (pat s : List Char) : Option (List Char) :=
  match dropLit pat s with
  | none => none
  | some r =>
    let tok := r.takeWhile isWordChar
    if tok = [] then none
    else
      let r2 := r.drop tok.length
      let sp := r2.takeWhile isPySpace
      if sp = [] then none
      else
        match r2.drop sp.length with
        | '(' :: r3 => takeUntilClose r3
        | _ => none

/-- `re.search(r'<mech>=\w+\s+\((.*?)\)', s)`. -/
def searchExplanation (pat : List Char) : List Char → Option (List Char)
  | [] => none
  | c :: rest =>
    match explanationAt pat (c :: rest) with
    | some e => some e
    | none => searchExplanation pat rest

/-- `re.search(r'\((.*?)\)', s)` used on `Received-SPF` values. -/
def searchParen : List Char → Option (List Char)
  | [] => none
  | c :: rest =>
    if c = '(' then
      match takeUntilClose rest with
      | some e => some e
      | none => searchParen rest
    else searchParen rest

/-- Attempt of `header\.\w+=(\S+)` anchored at the start of `s`. -/
def headerFragAt (s : List Char) : Option (List Char) :=
  match dropLit ("header.".data) s with
  | none => none
  | some r =>
    let w := r.takeWhile isWordChar
    if w = [] then none
    else
      match r.drop w.length with
      | '=' :: r2 =>
        let t := r2.takeWhile (fun c => !(isPySpace c))
        if t = [] then none else some t
      | _ => none

/-- Scan for `header\.\w+=(\S+)` left to right; the `.*?` that precedes
it in the selector pattern cannot cross a newline, so the scan stops at
one. -/
def scanHeaderFrag : List Char → Option (List Char)
  | [] => none
  | c :: rest =>
    match headerFragAt (c :: rest) with
    | some t => some t
    | none => if c = '\n' then none else scanHeaderFrag rest

/-- Backtracking of the greedy `\w+` in `dkim=\w+.*?header\.\w+=(\S+)`:
run lengths are tried from the maximal run down to 1, and for each the
lazy `.*?` scans forward from the end of the run. -/
def dkimTryRuns (r : List Char) : Nat → Option (List Char)
  | 0 => none
  | Nat.succ k =>
    match scanHeaderFrag (r.drop (k + 1)) with
    | some t => some t
    | none => dkimTryRuns r k

/-- Attempt of `dkim=\w+.*?header\.\w+=(\S+)` anchored at the start. -/
def dkimSelectorAt (s : List Char) : Option (List Char) :=
  match dropLit ("dkim=".data) s with
  | none => none
  | some r =>
    let run := r.takeWhile isWordChar
    if run = [] then none else dkimTryRuns r run.length

/-- `re.search(r'dkim=\w+.*?header\.\w+=(\S+)', s)`. -/
def searchDkimSelector : List Char → Option (List Char)
  | [] => none
  | c :: rest =>
    match dkimSelectorAt (c :: rest) with
    | some t => some t
    | none => searchDkimSelector rest

/-! ## Verdicts (`EmailHeaderAnalyzer` authentication results) -/

/-- The `{"result": ..., "explanation": ...}` dictionaries stored under
`results["authentication"]` for SPF / DMARC / ARC. -/
structure MechVerdict where
  result : String
  explanation : String
deriving DecidableEq, Repr

/-- The DKIM verdict additionally carries the displayed selector. -/
structure DkimVerdict where
  result : String
  explanation : String
  selector : String
deriving DecidableEq, Repr

/-- `results["authentication"]`: one optional verdict per mechanism. -/
structure AuthState where
  spf : Option MechVerdict := none
  dkim : Option DkimVerdict := none
  dmarc : Option MechVerdict := none
  arc : Option MechVerdict := none
deriving DecidableEq, Repr

/-- Explanation string for one mechanism of one `Authentication-Results`
value (empty when the parenthetical pattern finds nothing). -/
def explanationStr (pat s : List Char) : String :=
  match searchExplanation pat s with
  | some e => String.mk e
  | none => ""

/-- The SPF verdict a single `Authentication-Results` value yields
(the `spf=(\w+)` extraction of `_extract_from_authentication_results`). -/
def spfVerdictOf (ar : String) : Option MechVerdict :=
  match searchMechResult ("spf=".data) ar.data with
  | some tok => some ⟨String.mk (lowerChars tok), explanationStr ("spf=".data) ar.data⟩
  | none => none

/-- The DKIM verdict a single `Authentication-Results` value yields. -/
def dkimVerdictOf (ar : String) : Option DkimVerdict :=
  match searchMechResult ("dkim=".data) ar.data with
  | some tok =>
    let sel :=
      match searchDkimSelector ar.data with
      | some t => String.mk t
      | none => ""
    some ⟨String.mk (lowerChars tok), explanationStr ("dkim=".data) ar.data, sel⟩
  | none => none

/-- The DMARC verdict a single `Authentication-Results` value yields. -/
def dmarcVerdictOf (ar : String) : Option MechVerdict :=
  match searchMechResult ("dmarc=".data) ar.data with
  | some tok => some ⟨String.mk (lowerChars tok), explanationStr ("dmarc=".data) ar.data⟩
  | none => none

/-- The ARC verdict a single `Authentication-Results` value yields
(note: the pattern `arc=(\w+)` also fires inside `dmarc=...`, exactly as
in the source's unanchored regex). -/
def arcVerdictOf (ar : String) : Option MechVerdict :=
  match searchMechResult ("arc=".data) ar.data with
  | some tok => some ⟨String.mk (lowerChars tok), explanationStr ("arc=".data) ar.data⟩
  | none => none

/-- `EmailHeaderAnalyzer._extract_from_authentication_results`: SPF is
only written when still unset (`if spf_match and not ...["spf"]`), while
DKIM / DMARC / ARC are overwritten on every match. -/
def extractFromAuthResults (auth : AuthState) (ar : String) : AuthState :=
  let auth :=
    match spfVerdictOf ar, auth.spf with
    | some v, none => { auth with spf := some v }
    | _, _ => auth
  let auth :=
    match dkimVerdictOf ar with
    | some v => { auth with dkim := some v }
    | none => auth
  let auth :=
    match dmarcVerdictOf ar with
    | some v => { auth with dmarc := some v }
    | none => auth
  match arcVerdictOf ar with
  | some v => { auth with arc := some v }
  | none => auth

/-- `EmailHeaderAnalyzer._extract_spf_from_received_spf`: the result is
the leading `^(\w+)` token (lowercased); with no such token the method
returns `None`.  The explanation is the first `\((.*?)\)` group. -/
def extractSpfFromReceivedSpf (t : String) : Option MechVerdict :=
  let tok := t.data.takeWhile isWordChar
  if tok = [] then none
  else
    let expl :=
      match searchParen t.data with
      | some e => String.mk e
      | none => ""
    some ⟨String.mk (lowerChars tok), expl⟩

/-- The verdict-collection part of
`EmailHeaderAnalyzer._analyze_authentication`: seed the SPF verdict from
`Received-SPF` when that header was captured, then fold every retained
`Authentication-Results` occurrence in order. -/
def analyzeAuthVerdicts (receivedSpf : Option String) (authResults : List String) :
    AuthState :=
  let a0 : AuthState := {}
  let a1 :=
    match receivedSpf with
    | some t => { a0 with spf := extractSpfFromReceivedSpf t }
    | none => a0
  authResults.foldl extractFromAuthResults a1

/-! ## Alignment and issue identification (`_identify_issues`) -/

/-- Leftmost match of `<?([\w.-]+@([\w.-]+))>?`, group 2: the scan finds
the first `'@'` flanked by `[\w.-]` characters, and the domain is the
maximal `[\w.-]` run after it. -/
def emailDomainScan : List Char → Option (List Char)
  | [] => none
  | [_] => none
  | a :: b :: rest =>
    if isWordDot a && b = '@' &&
        (match rest with | c :: _ => isWordDot c | [] => false) then
      some (rest.takeWhile isWordDot)
    else emailDomainScan (b :: rest)

/-- `EmailHeaderAnalyzer._extract_domain_from_email`: `None` on a missing
or empty header value (both falsy in the source), else the regex group. -/
def domainFromEmail : Option String → Option String
  | none => none
  | some t => if t = "" then none else (emailDomainScan t.data).map String.mk

/-- The exact domain-mismatch issue text
(`Desalinhamento de domínio: From (...) ≠ Return-Path (...)`). -/
def mismatchMsg (d1 d2 : String) : String :=
  "Desalinhamento de domínio: From (" ++ d1 ++ ") ≠ Return-Path (" ++ d2 ++ ")"

/-- SPF block of `_identify_issues`. -/
def spfHeaderIssues : Option MechVerdict → List String
  | none => ["SPF não encontrado nos cabeçalhos"]
  | some v =>
    if v.result ≠ "pass" then ["Falha de SPF: " ++ v.result ++ " - " ++ v.explanation]
    else []

/-- DKIM block of `_identify_issues`. -/
def dkimHeaderIssues : Option DkimVerdict → List String
  | none => ["DKIM não encontrado nos cabeçalhos"]
  | some v =>
    if v.result ≠ "pass" then ["Falha de DKIM: " ++ v.result ++ " - " ++ v.explanation]
    else []

/-- DMARC block of `_identify_issues`. -/
def dmarcHeaderIssues : Option MechVerdict → List String
  | none => ["DMARC não encontrado nos cabeçalhos"]
  | some v =>
    if v.result ≠ "pass" then ["Falha de DMARC: " ++ v.result ++ " - " ++ v.explanation]
    else []

/-- Alignment block of `_identify_issues`: one mismatch issue when both
domains are extracted and differ as exact strings. -/
def alignmentIssues (fromH returnPath : Option String) : List String :=
  match domainFromEmail fromH, domainFromEmail returnPath with
  | some d1, some d2 => if d1 ≠ d2 then [mismatchMsg d1 d2] else []
  | _, _ => []

/-- `EmailHeaderAnalyzer._identify_issues`: the issues appended, in the
source's append order. -/
def identifyIssues (auth : AuthState) (fromH returnPath : Option String) :
    List String :=
  spfHeaderIssues auth.spf ++ dkimHeaderIssues auth.dkim ++
    dmarcHeaderIssues auth.dmarc ++ alignmentIssues fromH returnPath

/-! ## Header field extraction (`_extract_header_fields`) -/

/-- `results["headers"]` of the header analyzer.  (`from` is a Lean
keyword, hence the trailing underscore.) -/
structure Headers where
  from_ : Option String := none
  return_path : Option String := none
  sender : Option String := none
  received_spf : Option String := none
  authentication_results : List String := []
deriving DecidableEq, Repr

/-- `EmailHeaderAnalyzer._save_header_field`. -/
def saveHeaderField (h : Headers) (field value : String) : Headers :=
  if field = "from" then { h with from_ := some value }
  else if field = "return-path" then { h with return_path := some value }
  else if field = "sender" then { h with sender := some value }
  else if field = "received-spf" then { h with received_spf := some value }
  else if field = "authentication-results" then
    { h with authentication_results := h.authentication_results ++ [value] }
  else if field = "arc-authentication-results" then
    { h with authentication_results := h.authentication_results ++ ["ARC: " ++ value] }
  else h

/-- Python `line.split(':', 1)`: `some (before, after)` when a colon is
present, `none` otherwise. -/
def splitColonOnce : List Char → Option (List Char × List Char)
  | [] => none
  | c :: rest =>
    if c = ':' then some ([], rest)
    else
      match splitColonOnce rest with
      | some (a, b) => some (c :: a, b)
      | none => none

/-- One iteration of the `_extract_header_fields` loop over
`(headers-so-far, current_field, current_value)`. -/
def extractStep (st : Headers × Option String × String) (line : String) :
    Headers × Option String × String :=
  let (h, cf, cv) := st
  if pyStripL line.data = [] then (h, cf, cv)
  else if line.data.head?.any isPySpace then
    match cf with
    | some _ => (h, cf, cv ++ " " ++ String.mk (pyStripL line.data))
    | none => (h, cf, cv)
  else
    let h' :=
      match cf with
      | some f => saveHeaderField h f cv
      | none => h
    match splitColonOnce line.data with
    | some (name, rest) =>
      (h', some (String.mk (lowerChars name)), String.mk (pyStripL rest))
    | none => (h', none, "")

/-- `EmailHeaderAnalyzer._extract_header_fields`: fold the loop over the
lines and flush the final open field. -/
def extractHeaderFields (lines : List String) : Headers :=
  let st := lines.foldl extractStep ({}, none, "")
  match st.2.1 with
  | some f => saveHeaderField st.1 f st.2.2
  | none => st.1

/-! ## DNS checker (`email_auth_fix.py`, `EmailAuthChecker`) -/

/-- One discovered DKIM record (`{"selector", "record", "type"}`). -/
structure DkimFound where
  selector : String
  record : String
  type : String
deriving DecidableEq, Repr

/-- One DKIM recommendation (`{"selector", "host", "value", "type"}`). -/
structure DkimRec where
  selector : String
  host : String
  value : String
  type : String
deriving DecidableEq, Repr

/-- The `self.results` aggregate of `EmailAuthChecker`. -/
structure DnsResults where
  domain : String
  spf : Option String := none
  dkim : List DkimFound := []
  dmarc : Option String := none
  issues : List String := []
  recSpf : Option String := none
  recDkim : List DkimRec := []
  recDmarc : Option String := none
  bind9 : List String := []
  powershell : List String := []
  azureCli : List String := []
deriving DecidableEq, Repr

/-- `EmailAuthChecker.__init__` (the record fields the core mutates). -/
def initResults (domain : String) : DnsResults := { domain := domain }

/-- Python `str.strip('"')`: remove every leading and trailing `'"'`. -/
def stripQuoteChars (s : String) : String :=
  String.mk (((s.data.dropWhile (· = '"')).reverse.dropWhile (· = '"')).reverse)

/-- Python `str.startswith`. -/
def startsWithStr (s pre : String) : Bool := pre.data.isPrefixOf s.data

/-- The SPF candidate filter of `check_spf`:
`[str(rdata).strip('"') for rdata in answers if str(rdata).startswith('"v=spf1')]`. -/
def spfCandidates (answers : List String) : List String :=
  (answers.filter (fun r => startsWithStr r "\"v=spf1")).map stripQuoteChars

/-- `EmailAuthChecker._recommend_spf_record`'s canonical value. -/
def recommendedSpf : String := "v=spf1 include:spf.protection.outlook.com -all"

/-- `EmailAuthChecker._recommend_spf_record`. -/
def recommendSpfRecord (st : DnsResults) : DnsResults :=
  { st with recSpf := some recommendedSpf }

/-- The exact multiple-SPF-records issue text. -/
def multipleSpfMsg : String :=
  "Múltiplos registros SPF encontrados (apenas um é permitido)"

/-- The `include:spf.protection.outlook.com` containment check of
`check_spf` (`if "..." not in spf_record`). -/
def spfIncludeIssue (rec : String) : List String :=
  if hasSub ("include:spf.protection.outlook.com".data) rec.data then []
  else ["Registro SPF não inclui spf.protection.outlook.com"]

/-- The `"~all" not in ... and "-all" not in ...` containment check of
`check_spf`. -/
def spfAllIssue (rec : String) : List String :=
  if hasSub ("~all".data) rec.data || hasSub ("-all".data) rec.data then []
  else ["Registro SPF não possui mecanismo de proteção \x27all\x27 adequado"]

/-- The body of `check_spf` after a successful TXT resolution. -/
def checkSpfAnswers (st : DnsResults) (answers : List String) : DnsResults :=
  match spfCandidates answers with
  | [] =>
    recommendSpfRecord
      { st with issues := st.issues ++ ["Registro SPF não encontrado"], spf := none }
  | spfRecord :: restRecs =>
    let st :=
      if 1 < (spfRecord :: restRecs).length then
        { st with issues := st.issues ++ [multipleSpfMsg] }
      else st
    let st := { st with spf := some spfRecord }
    let st := { st with issues := st.issues ++ spfIncludeIssue spfRecord }
    let st := { st with issues := st.issues ++ spfAllIssue spfRecord }
    recommendSpfRecord st

/-- `EmailAuthChecker.check_spf`, with the TXT resolution outcome for the
domain passed in at the collaborator boundary. -/
def checkSpf (st : DnsResults) (ans : Except String (List String)) : DnsResults :=
  match ans with
  | Except.error e =>
    recommendSpfRecord
      { st with issues := st.issues ++ ["Erro ao consultar registro SPF: " ++ e] }
  | Except.ok answers => checkSpfAnswers st answers

/-- The per-selector not-found issue of `check_dkim`. -/
def dkimNotFoundMsg (sel : String) : String :=
  "Registro DKIM para seletor \x27" ++ sel ++ "\x27 não encontrado"

/-- The zero-selectors issue of `check_dkim`. -/
def dkimNoneFoundMsg : String := "Nenhum registro DKIM para Microsoft 365 encontrado"

/-- The fewer-than-two-selectors issue of `check_dkim`. -/
def dkimNeedTwoMsg : String :=
  "Microsoft 365 requer dois registros DKIM (selector1 e selector2)"

/-- One iteration of `check_dkim`'s selector loop: CNAME first, TXT as
fallback, a per-selector issue when both resolutions fail.  On success
the stored record is `str(answers[0])` (a successful resolution always
carries at least one answer; `headD` models the `[0]` access). -/
def dkimLookup (sel : String) (cname txt : Except String (List String)) :
    Option DkimFound × List String :=
  match cname with
  | Except.ok answers => (some ⟨sel, answers.headD "", "CNAME"⟩, [])
  | Except.error _ =>
    match txt with
    | Except.ok answers => (some ⟨sel, stripQuoteChars (answers.headD ""), "TXT"⟩, [])
    | Except.error _ => (none, [dkimNotFoundMsg sel])

/-- A successful `dropLit` returns a suffix, hence no longer a list. -/
theorem dropLit_length_le (ps rest r : List Char) (h : dropLit ps rest = some r) :
    r.length ≤ rest.length := by
  induction ps generalizing rest r with
  | nil => cases h; exact Nat.le_refl _
  | cons q qs ih =>
    match rest, h with
    | x :: xs, h =>
      by_cases hq : q = x
      · simp only [dropLit, hq, if_pos rfl] at h
        exact Nat.le_trans (ih _ _ h) (Nat.le_succ _)
      · simp [dropLit, hq] at h

/-- Python `str.replace(old, new)` for a nonempty `old = p :: ps`:
left-to-right, non-overlapping. -/
def replaceSub (p : Char) (ps rep : List Char) : List Char → List Char
  | [] => []
  | c :: rest =>
    if p = c then
      match h : dropLit ps rest with
      | some r => rep ++ replaceSub p ps rep r
      | none => c :: replaceSub p ps rep rest
    else c :: replaceSub p ps rep rest
termination_by s => s.length
decreasing_by
  · have := dropLit_length_le ps rest r h
    simp only [List.length_cons]
    omega
  · simp
  · simp

/-- `domain.replace('.', '-')` in `_recommend_dkim_records`. -/
def dotsToDashes (s : String) : String := String.mk (replaceSub '.' [] ['-'] s.data)

/-- `re.search(r'_domainkey\.([^.]+\.onmicrosoft\.com)\.?$', value)`,
group 1.  The pattern is end-anchored: an optional trailing dot is
consumed, the value must then end in `.onmicrosoft.com` preceded by a
nonempty dot-free label, itself preceded by the literal `_domainkey.`. -/
def tenantFromCname (v : String) : Option String :=
  let s := v.data
  let s := if s.getLast? = some '.' then s.dropLast else s
  let suf := ".onmicrosoft.com".data
  if suf.isSuffixOf s then
    let pre := s.take (s.length - suf.length)
    let x := (pre.reverse.takeWhile (· ≠ '.')).reverse
    if x ≠ [] && ("_domainkey.".data).isSuffixOf (pre.take (pre.length - x.length)) then
      some (String.mk (x ++ suf))
    else none
  else none

/-- `EmailAuthChecker._extract_tenant_domain`: first CNAME-typed record
whose value matches the tenant pattern (an empty record list yields
`None`). -/
def extractTenantDomain (dkim : List DkimFound) : Option String :=
  dkim.findSome? fun info =>
    if info.type = "CNAME" then tenantFromCname info.record else none

/-- The placeholder tenant domain of `_recommend_dkim_records`. -/
def placeholderTenant : String := "tenant.onmicrosoft.com"

/-- The issue accompanying the placeholder tenant domain. -/
def tenantIssueMsg : String :=
  "Não foi possível determinar o domínio do tenant do Microsoft 365. Substitua \x27tenant.onmicrosoft.com\x27 pelo seu domínio real."

/-- One DKIM CNAME recommendation of `_recommend_dkim_records`. -/
def dkimRecFor (domain tenant sel : String) : DkimRec :=
  ⟨sel, sel ++ "._domainkey." ++ domain,
    sel ++ "-" ++ dotsToDashes domain ++ "._domainkey." ++ tenant, "CNAME"⟩

/-- `EmailAuthChecker._recommend_dkim_records`. -/
def recommendDkimRecords (st : DnsResults) : DnsResults :=
  let p :=
    match extractTenantDomain st.dkim with
    | some t => (t, st)
    | none => (placeholderTenant, { st with issues := st.issues ++ [tenantIssueMsg] })
  let tenant := p.1
  let st := p.2
  { st with
    recDkim := [dkimRecFor st.domain tenant "selector1",
                dkimRecFor st.domain tenant "selector2"] }

/-- `EmailAuthChecker.check_dkim`, with the four resolution outcomes
(CNAME and TXT for each of the two well-known selectors) passed in at
the collaborator boundary. -/
def checkDkim (st : DnsResults)
    (sel1Cname sel1Txt sel2Cname sel2Txt : Except String (List String)) :
    DnsResults :=
  let r1 := dkimLookup "selector1" sel1Cname sel1Txt
  let r2 := dkimLookup "selector2" sel2Cname sel2Txt
  let found := r1.1.toList ++ r2.1.toList
  let st := { st with issues := st.issues ++ r1.2 ++ r2.2, dkim := found }
  let st :=
    if found.length = 0 then { st with issues := st.issues ++ [dkimNoneFoundMsg] }
    else if found.length < 2 then { st with issues := st.issues ++ [dkimNeedTwoMsg] }
    else st
  recommendDkimRecords st

/-- `EmailAuthChecker._recommend_dmarc_record`. -/
def recommendDmarcRecord (st : DnsResults) : DnsResults :=
  let adminEmail := "admin@" ++ st.domain
  { st with
    recDmarc := some ("v=DMARC1; p=quarantine; pct=100; rua=mailto:" ++ adminEmail ++
      "; ruf=mailto:" ++ adminEmail ++ "; fo=1") }

/-- `selector.replace("selector", "")` in the PowerShell branch of
`_generate_commands`. -/
def selNum (sel : String) : String :=
  String.mk (replaceSub 's' ("elector".data) [] sel.data)

/-- `EmailAuthChecker._generate_commands`: BIND9, PowerShell and Azure
CLI command lists, each guarded by the truthiness of the corresponding
recommendation and appended in mechanism order SPF, DKIM (selector
order), DMARC. -/
def generateCommands (st : DnsResults) : DnsResults :=
  let st :=
    match st.recSpf with
    | some rec =>
      { st with bind9 := st.bind9 ++ [st.domain ++ ". IN TXT \"" ++ rec ++ "\""] }
    | none => st
  let st :=
    if st.recDkim.isEmpty then st
    else
      { st with bind9 := st.bind9 ++
          st.recDkim.map (fun r => r.host ++ ". IN CNAME " ++ r.value ++ ".") }
  let st :=
    match st.recDmarc with
    | some rec =>
      { st with bind9 := st.bind9 ++
          ["_dmarc." ++ st.domain ++ ". IN TXT \"" ++ rec ++ "\""] }
    | none => st
  let st :=
    match st.recSpf with
    | some rec =>
      { st with powershell := st.powershell ++
          ["Add-DnsServerResourceRecord -ZoneName \"" ++ st.domain ++
            "\" -Name \"@\" -Txt -DescriptiveText \"" ++ rec ++ "\" -TimeToLive 01:00:00"] }
    | none => st
  let st :=
    if st.recDkim.isEmpty then st
    else
      { st with powershell := st.powershell ++
          st.recDkim.map (fun r =>
            "New-DkimSigningConfig -DomainName \"" ++ st.domain ++
              "\" -Enabled $true -KeySize 2048 -Selector" ++ selNum r.selector ++
              " \"" ++ r.host ++ "\"") }
  let st :=
    match st.recDmarc with
    | some rec =>
      { st with powershell := st.powershell ++
          ["Add-DnsServerResourceRecord -ZoneName \"" ++ st.domain ++
            "\" -Name \"_dmarc\" -Txt -DescriptiveText \"" ++ rec ++ "\" -TimeToLive 01:00:00"] }
    | none => st
  let st :=
    match st.recSpf with
    | some rec =>
      { st with azureCli := st.azureCli ++
          ["az network dns record-set txt add-record -g YourResourceGroup -z " ++
            st.domain ++ " -n \"@\" -v \"" ++ rec ++ "\""] }
    | none => st
  let st :=
    if st.recDkim.isEmpty then st
    else
      { st with azureCli := st.azureCli ++
          st.recDkim.map (fun r =>
            "az network dns record-set cname set-record -g YourResourceGroup -z " ++
              st.domain ++ " -n \"" ++ r.selector ++ "._domainkey\" -c \"" ++
              r.value ++ "\"") }
  match st.recDmarc with
  | some rec =>
    { st with azureCli := st.azureCli ++
        ["az network dns record-set txt add-record -g YourResourceGroup -z " ++
          st.domain ++ " -n \"_dmarc\" -v \"" ++ rec ++ "\""] }
  | none => st

/-! ## Serialized result shapes

`export_json` in both scripts dumps `self.results` directly, so the
top-level JSON keys are exactly the keys of the dictionary literal built
in the respective `__init__`, in insertion order. -/

/-- Top-level keys of `EmailHeaderAnalyzer.__init__`'s `self.results`. -/
def headerResultsKeys : List String :=
  ["timestamp", "authentication", "headers", "issues", "recommendations"]

/-- Top-level keys of `EmailAuthChecker.__init__`'s `self.results`. -/
def dnsResultsKeys : List String :=
  ["domain", "timestamp", "records", "issues", "recommendations", "commands"]

/-! ## Helper lemmas: verdict folding -/

theorem option_or_assoc {α : Type} (a b c : Option α) :
    (a.or b).or c = a.or (b.or c) := by cases a <;> rfl

theorem option_or_none {α : Type} (a : Option α) : a.or none = a := by
  cases a <;> rfl

theorem findSome?_cons_or {α β : Type} (f : α → Option β) (a : α) (l : List α) :
    (a :: l).findSome? f = (f a).or (l.findSome? f) := by
  rw [List.findSome?]; cases f a <;> rfl

/-- The SPF field of one `_extract_from_authentication_results` step is
first-wins: an already-set verdict is kept. -/
theorem extract_spf_field (auth : AuthState) (ar : String) :
    (extractFromAuthResults auth ar).spf = auth.spf.or (spfVerdictOf ar) := by
  unfold extractFromAuthResults
  rcases hs : spfVerdictOf ar with _ | v <;>
    rcases ha : auth.spf with _ | w <;>
      rcases hd : dkimVerdictOf ar with _ | x <;>
        rcases hm : dmarcVerdictOf ar with _ | y <;>
          rcases hr : arcVerdictOf ar with _ | z <;>
            simp [hs, ha, hd, hm, hr, Option.or]

/-- The DKIM field of one step is last-wins: a match overwrites. -/
theorem extract_dkim_field (auth : AuthState) (ar : String) :
    (extractFromAuthResults auth ar).dkim = (dkimVerdictOf ar).or auth.dkim := by
  unfold extractFromAuthResults
  rcases hs : spfVerdictOf ar with _ | v <;>
    rcases ha : auth.spf with _ | w <;>
      rcases hd : dkimVerdictOf ar with _ | x <;>
        rcases hm : dmarcVerdictOf ar with _ | y <;>
          rcases hr : arcVerdictOf ar with _ | z <;>
            simp [hs, ha, hd, hm, hr, Option.or]

/-- The DMARC field of one step is last-wins. -/
theorem extract_dmarc_field (auth : AuthState) (ar : String) :
    (extractFromAuthResults auth ar).dmarc = (dmarcVerdictOf ar).or auth.dmarc := by
  unfold extractFromAuthResults
  rcases hs : spfVerdictOf ar with _ | v <;>
    rcases ha : auth.spf with _ | w <;>
      rcases hd : dkimVerdictOf ar with _ | x <;>
        rcases hm : dmarcVerdictOf ar with _ | y <;>
          rcases hr : arcVerdictOf ar with _ | z <;>
            simp [hs, ha, hd, hm, hr, Option.or]

/-- The ARC field of one step is last-wins. -/
theorem extract_arc_field (auth : AuthState) (ar : String) :
    (extractFromAuthResults auth ar).arc = (arcVerdictOf ar).or auth.arc := by
  unfold extractFromAuthResults
  rcases hs : spfVerdictOf ar with _ | v <;>
    rcases ha : auth.spf with _ | w <;>
      rcases hd : dkimVerdictOf ar with _ | x <;>
        rcases hm : dmarcVerdictOf ar with _ | y <;>
          rcases hr : arcVerdictOf ar with _ | z <;>
            simp [hs, ha, hd, hm, hr, Option.or]

/-- Folding the occurrence list: the SPF verdict is the seed, else the
first occurrence that supplies one. -/
theorem foldl_spf (ars : List String) (auth : AuthState) :
    (ars.foldl extractFromAuthResults auth).spf =
      auth.spf.or (ars.findSome? spfVerdictOf) := by
  induction ars generalizing auth with
  | nil => rw [List.foldl_nil, List.findSome?_nil, option_or_none]
  | cons hd tl ih =>
    rw [List.foldl_cons, ih, extract_spf_field, option_or_assoc, findSome?_cons_or]

/-- Folding the occurrence list: the DKIM verdict comes from the last
occurrence that supplies one, else the seed. -/
theorem foldl_dkim (ars : List String) (auth : AuthState) :
    (ars.foldl extractFromAuthResults auth).dkim =
      (ars.reverse.findSome? dkimVerdictOf).or auth.dkim := by
  induction ars generalizing auth with
  | nil => rw [List.foldl_nil, List.reverse_nil, List.findSome?_nil]; rfl
  | cons hd tl ih =>
    rw [List.foldl_cons, ih, extract_dkim_field, List.reverse_cons,
      List.findSome?_append, option_or_assoc]
    congr 1
    rw [findSome?_cons_or]
    cases dkimVerdictOf hd <;> rfl

/-- Folding the occurrence list: DMARC is last-wins. -/
theorem foldl_dmarc (ars : List String) (auth : AuthState) :
    (ars.foldl extractFromAuthResults auth).dmarc =
      (ars.reverse.findSome? dmarcVerdictOf).or auth.dmarc := by
  induction ars generalizing auth with
  | nil => rw [List.foldl_nil, List.reverse_nil, List.findSome?_nil]; rfl
  | cons hd tl ih =>
    rw [List.foldl_cons, ih, extract_dmarc_field, List.reverse_cons,
      List.findSome?_append, option_or_assoc]
    congr 1
    rw [findSome?_cons_or]
    cases dmarcVerdictOf hd <;> rfl

/-- Folding the occurrence list: ARC is last-wins. -/
theorem foldl_arc (ars : List String) (auth : AuthState) :
    (ars.foldl extractFromAuthResults auth).arc =
      (ars.reverse.findSome? arcVerdictOf).or auth.arc := by
  induction ars generalizing auth with
  | nil => rw [List.foldl_nil, List.reverse_nil, List.findSome?_nil]; rfl
  | cons hd tl ih =>
    rw [List.foldl_cons, ih, extract_arc_field, List.reverse_cons,
      List.findSome?_append, option_or_assoc]
    congr 1
    rw [findSome?_cons_or]
    cases arcVerdictOf hd <;> rfl

/-! ## Claim theorems: header authentication precedence -/

/-- C1: a verdict derived from `Received-SPF` is the final SPF verdict
regardless of any `spf=` tokens in the `Authentication-Results`
occurrences; when `Received-SPF` is absent, the first occurrence
supplying `spf=` determines the SPF verdict and later occurrences are
ignored (the final verdict is `findSome?`, the first hit). -/
theorem spf_received_precedence_first_wins (rs : String) (ars : List String) :
    (∀ v, extractSpfFromReceivedSpf rs = some v →
      (analyzeAuthVerdicts (some rs) ars).spf = some v)
    ∧ (analyzeAuthVerdicts none ars).spf = ars.findSome? spfVerdictOf := by
  constructor
  · intro v hv
    unfold analyzeAuthVerdicts
    rw [foldl_spf]
    simp [hv, Option.or]
  · unfold analyzeAuthVerdicts
    rw [foldl_spf]
    rfl

/-- Witness for C1, at the spec's own example: `Received-SPF: pass (...)`
beats an `Authentication-Results` with `spf=fail`. -/
theorem spf_received_precedence_first_wins_witness :
    (analyzeAuthVerdicts (some "pass (domain designates 1.2.3.4 as permitted sender)")
        ["mx.example.com; spf=fail (sender IP is 6.7.8.9)"]).spf
      = some ⟨"pass", "domain designates 1.2.3.4 as permitted sender"⟩ :=
  (spf_received_precedence_first_wins
      "pass (domain designates 1.2.3.4 as permitted sender)"
      ["mx.example.com; spf=fail (sender IP is 6.7.8.9)"]).1
    ⟨"pass", "domain designates 1.2.3.4 as permitted sender"⟩ (by decide)

/-- C2: the final DKIM, DMARC and ARC verdicts each equal the verdict
extracted from the last occurrence supplying that mechanism's token
(`findSome?` over the reversed occurrence list); in particular
`dkim=pass` then `dkim=fail` ends in `fail`. -/
theorem mech_last_occurrence_wins (rs : Option String) (ars : List String) :
    (analyzeAuthVerdicts rs ars).dkim = ars.reverse.findSome? dkimVerdictOf
    ∧ (analyzeAuthVerdicts rs ars).dmarc = ars.reverse.findSome? dmarcVerdictOf
    ∧ (analyzeAuthVerdicts rs ars).arc = ars.reverse.findSome? arcVerdictOf
    ∧ (analyzeAuthVerdicts none ["dkim=pass", "dkim=fail"]).dkim
        = some ⟨"fail", "", ""⟩ := by
  refine ⟨?_, ?_, ?_, by decide⟩ <;>
    unfold analyzeAuthVerdicts
  · rw [foldl_dkim]
    cases rs <;> exact option_or_none _
  · rw [foldl_dmarc]
    cases rs <;> exact option_or_none _
  · rw [foldl_arc]
    cases rs <;> exact option_or_none _

/-- C10: when the `Received-SPF` value does not begin with a `\w`
character, its extraction yields no verdict, the SPF slot stays unset
(the analysis equals the one without `Received-SPF`), and the first
`Authentication-Results` occurrence supplying `spf=` then populates it. -/
theorem received_spf_unparseable_falls_through (rs : String) (ars : List String)
    (h : rs.data.head?.all (fun c => !isWordChar c) = true) :
    extractSpfFromReceivedSpf rs = none
    ∧ analyzeAuthVerdicts (some rs) ars = analyzeAuthVerdicts none ars
    ∧ (analyzeAuthVerdicts (some rs) ars).spf = ars.findSome? spfVerdictOf := by
  have h1 : extractSpfFromReceivedSpf rs = none := by
    unfold extractSpfFromReceivedSpf
    cases hd : rs.data with
    | nil => simp
    | cons c l =>
      rw [hd] at h
      simp only [Option.all, List.head?] at h
      have hc : isWordChar c = false := by
        cases hw : isWordChar c
        · rfl
        · rw [hw] at h; exact absurd h (by decide)
      simp [List.takeWhile, hc]
  have h2 : analyzeAuthVerdicts (some rs) ars = analyzeAuthVerdicts none ars := by
    show List.foldl extractFromAuthResults
        { spf := extractSpfFromReceivedSpf rs } ars = _
    rw [h1]
    rfl
  refine ⟨h1, h2, ?_⟩
  rw [h2]
  show (List.foldl extractFromAuthResults {} ars).spf = _
  rw [foldl_spf]
  rfl

/-- Witness for C10: `Received-SPF: (pass)` is unparseable, and the
later `spf=softfail` occurrence populates the verdict. -/
theorem received_spf_unparseable_falls_through_witness :
    extractSpfFromReceivedSpf "(pass)" = none
    ∧ analyzeAuthVerdicts (some "(pass)") ["x; spf=softfail"]
        = analyzeAuthVerdicts none ["x; spf=softfail"]
    ∧ (analyzeAuthVerdicts (some "(pass)") ["x; spf=softfail"]).spf
        = ["x; spf=softfail"].findSome? spfVerdictOf :=
  received_spf_unparseable_falls_through "(pass)" ["x; spf=softfail"] (by decide)

/-! ## Helper lemmas: alignment issue counting -/

theorem string_ne_of_get {a b : String} (i : Nat) (x y : Char)
    (ha : a.data[i]? = some x) (hb : b.data[i]? = some y) (hxy : x ≠ y) : a ≠ b :=
  fun he => hxy (by rw [he] at ha; rw [ha] at hb; exact Option.some.inj hb)

theorem mismatch_count_spf (o : Option MechVerdict) (d1 d2 : String) :
    (spfHeaderIssues o).count (mismatchMsg d1 d2) = 0 := by
  apply List.count_eq_zero.mpr
  rcases o with _ | v
  · intro hm
    rw [spfHeaderIssues, List.mem_singleton] at hm
    exact string_ne_of_get 0 'D' 'S' (by rfl) (by rfl) (by decide) hm
  · rw [spfHeaderIssues]
    split
    · intro hm
      rw [List.mem_singleton] at hm
      exact string_ne_of_get 0 'D' 'F' (by rfl) (by rfl) (by decide) hm
    · exact List.not_mem_nil _

theorem mismatch_count_dkim (o : Option DkimVerdict) (d1 d2 : String) :
    (dkimHeaderIssues o).count (mismatchMsg d1 d2) = 0 := by
  apply List.count_eq_zero.mpr
  rcases o with _ | v
  · intro hm
    rw [dkimHeaderIssues, List.mem_singleton] at hm
    exact string_ne_of_get 1 'e' 'K' (by rfl) (by rfl) (by decide) hm
  · rw [dkimHeaderIssues]
    split
    · intro hm
      rw [List.mem_singleton] at hm
      exact string_ne_of_get 0 'D' 'F' (by rfl) (by rfl) (by decide) hm
    · exact List.not_mem_nil _

theorem mismatch_count_dmarc (o : Option MechVerdict) (d1 d2 : String) :
    (dmarcHeaderIssues o).count (mismatchMsg d1 d2) = 0 := by
  apply List.count_eq_zero.mpr
  rcases o with _ | v
  · intro hm
    rw [dmarcHeaderIssues, List.mem_singleton] at hm
    exact string_ne_of_get 1 'e' 'M' (by rfl) (by rfl) (by decide) hm
  · rw [dmarcHeaderIssues]
    split
    · intro hm
      rw [List.mem_singleton] at hm
      exact string_ne_of_get 0 'D' 'F' (by rfl) (by rfl) (by decide) hm
    · exact List.not_mem_nil _

/-- C7: whenever the permissive address pattern extracts a domain from
both `From` and `Return-Path`, the issue list of `_identify_issues`
contains the domain-mismatch issue naming those domains exactly once if
the two domains differ as exact strings, and not at all otherwise. -/
theorem alignment_mismatch_exactly_one (auth : AuthState) (fH rH : Option String)
    (d1 d2 : String) (hf : domainFromEmail fH = some d1)
    (hr : domainFromEmail rH = some d2) :
    (identifyIssues auth fH rH).count (mismatchMsg d1 d2)
      = if d1 = d2 then 0 else 1 := by
  unfold identifyIssues alignmentIssues
  rw [hf, hr, List.count_append, List.count_append, List.count_append,
    mismatch_count_spf, mismatch_count_dkim, mismatch_count_dmarc]
  simp only [Nat.zero_add, Nat.add_zero]
  by_cases he : d1 = d2
  · simp [he]
  · simp [he]

/-- Witness for C7, at the spec's own example: `From: user@a.com` and
`Return-Path: <user@b.com>` yield exactly one mismatch issue naming
`a.com` and `b.com`. -/
theorem alignment_mismatch_exactly_one_witness :
    (identifyIssues {} (some "user@a.com") (some "<user@b.com>")).count
        (mismatchMsg "a.com" "b.com")
      = if ("a.com" : String) = "b.com" then 0 else 1 :=
  alignment_mismatch_exactly_one {} (some "user@a.com") (some "<user@b.com>")
    "a.com" "b.com" (by decide) (by decide)

/-! ## Helper lemmas: header extraction loop -/

/-- With no open field, a blank or whitespace-indented line leaves the
loop state unchanged. -/
theorem extractStep_indented_no_field (h : Headers) (v : String) (c : String)
    (hc : c.data.head?.all isPySpace = true) :
    extractStep (h, none, v) c = (h, none, v) := by
  unfold extractStep
  cases hd : c.data with
  | nil => simp [hd, pyStripL]
  | cons c0 l =>
    rw [hd] at hc
    simp only [Option.all, List.head?] at hc
    by_cases hb : pyStripL (c0 :: l) = []
    · simp [hd, hb]
    · simp [hd, hb, hc]

/-- With no open field, a run of blank or indented lines is skipped. -/
theorem foldl_skip_indented (cs : List String) (h : Headers) (v : String)
    (hcs : ∀ c ∈ cs, c.data.head?.all isPySpace = true) :
    cs.foldl extractStep (h, none, v) = (h, none, v) := by
  induction cs with
  | nil => rfl
  | cons c cs ih =>
    rw [List.foldl_cons, extractStep_indented_no_field h v c (hcs c (by simp)),
      ih (fun c' hc' => hcs c' (by simp [hc']))]

/-- A nonblank, non-indented, colonless line flushes the open field and
resets the current field to `none` with an empty current value. -/
theorem extractStep_colonless (s : Headers × Option String × String) (L : String)
    (h1 : pyStripL L.data ≠ []) (h2 : L.data.head?.any isPySpace = false)
    (h3 : splitColonOnce L.data = none) :
    extractStep s L =
      ((match s.2.1 with
        | some f => saveHeaderField s.1 f s.2.2
        | none => s.1), none, "") := by
  obtain ⟨h, cf, cv⟩ := s
  unfold extractStep
  simp [h1, h2, h3]

/-- C9: in `_extract_header_fields`, a nonblank non-indented line with
no colon resets the current field to `none` (flushing the previously
open field), and that line together with any immediately following blank
or whitespace-indented continuation lines contributes nothing: the fold
over `L :: cs ++ rest` equals the fold over `L :: rest`. -/
theorem colonless_line_resets_and_discards (s : Headers × Option String × String)
    (L : String) (cs rest : List String)
    (h1 : pyStripL L.data ≠ []) (h2 : L.data.head?.any isPySpace = false)
    (h3 : splitColonOnce L.data = none)
    (hcs : ∀ c ∈ cs, c.data.head?.all isPySpace = true) :
    (L :: cs).foldl extractStep s
      = ((match s.2.1 with
          | some f => saveHeaderField s.1 f s.2.2
          | none => s.1), none, "")
    ∧ (L :: (cs ++ rest)).foldl extractStep s = (L :: rest).foldl extractStep s := by
  have hL := extractStep_colonless s L h1 h2 h3
  constructor
  · rw [List.foldl_cons, hL, foldl_skip_indented _ _ _ hcs]
  · rw [List.foldl_cons, List.foldl_cons, hL, List.foldl_append,
      foldl_skip_indented _ _ _ hcs]

/-- Witness for C9: a colonless junk line after an open `Received-SPF`
field flushes that field, resets to no field, and swallows two indented
lines. -/
theorem colonless_line_resets_and_discards_witness :
    (("garbage line" :: ["  lost one", "\tlost two"]).foldl extractStep
        (({} : Headers), some "received-spf", "pass")
      = (saveHeaderField {} "received-spf" "pass", none, ""))
    ∧ (("garbage line" :: (["  lost one", "\tlost two"] ++ ["Sender: bob@b.com"])).foldl
          extractStep (({} : Headers), some "received-spf", "pass")
        = ("garbage line" :: ["Sender: bob@b.com"]).foldl extractStep
            (({} : Headers), some "received-spf", "pass")) :=
  colonless_line_resets_and_discards (({} : Headers), some "received-spf", "pass")
    "garbage line" ["  lost one", "\tlost two"] ["Sender: bob@b.com"]
    (by decide) (by decide) (by decide) (by decide)

/-! ## Claim theorems: DNS validator -/

/-- Counterexample to C3 as stated: when both selectors resolve to
nothing, the requires-two issue (`Microsoft 365 requer dois registros
DKIM ...`) is NOT among the raised issues — the zero-selector branch
raises the none-found issue instead. -/
theorem dkim_all_missing_counterexample :
    dkimNeedTwoMsg ∉
      (checkDkim (initResults "example.com") (Except.error "nx") (Except.error "nx")
        (Except.error "nx") (Except.error "nx")).issues := by decide

/-- C3 (amended): with no CNAME or TXT answer for either selector the
issue list gains exactly the two per-selector not-found issues plus the
no-DKIM-records-found issue (the requires-two issue fires only when
exactly one selector is found), the discovered record list is empty, and
the DKIM recommendation uses the placeholder tenant domain together with
the accompanying placeholder issue. -/
theorem dkim_all_missing (st : DnsResults) (e1 e2 e3 e4 : String) :
    (checkDkim st (Except.error e1) (Except.error e2) (Except.error e3)
        (Except.error e4)).issues
      = st.issues ++ [dkimNotFoundMsg "selector1", dkimNotFoundMsg "selector2",
          dkimNoneFoundMsg, tenantIssueMsg]
    ∧ (checkDkim st (Except.error e1) (Except.error e2) (Except.error e3)
        (Except.error e4)).dkim = []
    ∧ (checkDkim st (Except.error e1) (Except.error e2) (Except.error e3)
        (Except.error e4)).recDkim
      = [dkimRecFor st.domain placeholderTenant "selector1",
         dkimRecFor st.domain placeholderTenant "selector2"] := by
  refine ⟨?_, rfl, rfl⟩
  show ((st.issues ++ [dkimNotFoundMsg "selector1"] ++ [dkimNotFoundMsg "selector2"])
      ++ [dkimNoneFoundMsg]) ++ [tenantIssueMsg] = _
  simp [List.append_assoc]

/-- The post-selection behaviour of `check_spf` once the candidate list
is nonempty: the first candidate is stored, the multiplicity issue is
raised for more than one candidate, and the include / `all` shape checks
run on the first candidate. -/
theorem checkSpf_ok_cons (st : DnsResults) (answers : List String) (r1 : String)
    (rest : List String) (h : spfCandidates answers = r1 :: rest) :
    checkSpf st (Except.ok answers)
      = { st with
          spf := some r1,
          issues := st.issues
            ++ (if 1 < (r1 :: rest).length then [multipleSpfMsg] else [])
            ++ spfIncludeIssue r1 ++ spfAllIssue r1,
          recSpf := some recommendedSpf } := by
  show checkSpfAnswers st answers = _
  unfold checkSpfAnswers recommendSpfRecord
  rw [h]
  by_cases hm : 0 < rest.length
  · simp [hm, List.append_assoc]
  · simp [hm, List.append_assoc]

/-- Counterexample to C4 as stated: a chosen SPF record that does NOT
end in `~all` or `-all` (it merely contains `-all` in the middle) raises
no issue at all, contradicting the does-not-end-in reading. -/
theorem spf_shape_checks_counterexample :
    (¬ (("~all".data).isSuffixOf
          ("v=spf1 include:spf.protection.outlook.com -all x".data))
      ∧ ¬ (("-all".data).isSuffixOf
          ("v=spf1 include:spf.protection.outlook.com -all x".data)))
    ∧ (checkSpf (initResults "example.com")
        (Except.ok ["\"v=spf1 include:spf.protection.outlook.com -all x\""])).issues
      = [] := by decide

/-- C4 (amended): for the chosen SPF record the validator raises one
distinct issue when the record does not CONTAIN the required include
token and a separate distinct issue when it does not CONTAIN `~all` or
`-all` as a substring (not: end in one), each check independent of the
other. -/
theorem spf_shape_checks (st : DnsResults) (answers : List String) (r1 : String)
    (rest : List String) (h : spfCandidates answers = r1 :: rest) :
    (checkSpf st (Except.ok answers)).issues
      = st.issues ++ (if 1 < (r1 :: rest).length then [multipleSpfMsg] else [])
        ++ (if hasSub ("include:spf.protection.outlook.com".data) r1.data then []
            else ["Registro SPF não inclui spf.protection.outlook.com"])
        ++ (if hasSub ("~all".data) r1.data || hasSub ("-all".data) r1.data then []
            else ["Registro SPF não possui mecanismo de proteção \x27all\x27 adequado"])
    ∧ ("Registro SPF não inclui spf.protection.outlook.com" : String)
        ≠ "Registro SPF não possui mecanismo de proteção \x27all\x27 adequado" := by
  refine ⟨?_, by decide⟩
  rw [checkSpf_ok_cons st answers r1 rest h]
  rfl

/-- Witness for C4 (amended): a record missing both the include token
and any `all` qualifier raises both distinct issues, after the
multiplicity issue slot stays empty for a single candidate. -/
theorem spf_shape_checks_witness :
    (checkSpf (initResults "example.com") (Except.ok ["\"v=spf1 mx\""])).issues
      = [] ++ (if 1 < (["v=spf1 mx"] : List String).length then [multipleSpfMsg] else [])
        ++ (if hasSub ("include:spf.protection.outlook.com".data) "v=spf1 mx".data then []
            else ["Registro SPF não inclui spf.protection.outlook.com"])
        ++ (if hasSub ("~all".data) "v=spf1 mx".data || hasSub ("-all".data) "v=spf1 mx".data
            then [] else ["Registro SPF não possui mecanismo de proteção \x27all\x27 adequado"])
    ∧ ("Registro SPF não inclui spf.protection.outlook.com" : String)
        ≠ "Registro SPF não possui mecanismo de proteção \x27all\x27 adequado" :=
  spf_shape_checks (initResults "example.com") ["\"v=spf1 mx\""] "v=spf1 mx" []
    (by decide)

/-- C5: with two or more `v=spf1` TXT candidates, the validator records
the multiple-SPF-records issue exactly once among the issues it adds,
stores the first candidate as the (non-null) SPF record, and still runs
the include / `all` shape checks on that first candidate. -/
theorem multiple_spf_first_used (st : DnsResults) (answers : List String)
    (r1 : String) (rest : List String) (h : spfCandidates answers = r1 :: rest)
    (hne : rest ≠ []) :
    (checkSpf st (Except.ok answers)).spf = some r1
    ∧ (checkSpf st (Except.ok answers)).issues
        = st.issues ++ [multipleSpfMsg] ++ spfIncludeIssue r1 ++ spfAllIssue r1
    ∧ ([multipleSpfMsg] ++ spfIncludeIssue r1 ++ spfAllIssue r1).count multipleSpfMsg
        = 1 := by
  have hm : 1 < (r1 :: rest).length := by
    cases rest with
    | nil => exact absurd rfl hne
    | cons a l => simp
  rw [checkSpf_ok_cons st answers r1 rest h]
  refine ⟨rfl, by rw [if_pos hm], ?_⟩
  rw [List.count_append, List.count_append]
  have hinc : (spfIncludeIssue r1).count multipleSpfMsg = 0 := by
    apply List.count_eq_zero.mpr
    unfold spfIncludeIssue
    split
    · exact List.not_mem_nil _
    · intro hmem
      rw [List.mem_singleton] at hmem
      exact string_ne_of_get 0 'M' 'R' (by rfl) (by rfl) (by decide) hmem
  have hall : (spfAllIssue r1).count multipleSpfMsg = 0 := by
    apply List.count_eq_zero.mpr
    unfold spfAllIssue
    split
    · exact List.not_mem_nil _
    · intro hmem
      rw [List.mem_singleton] at hmem
      exact string_ne_of_get 0 'M' 'R' (by rfl) (by rfl) (by decide) hmem
  rw [hinc, hall]
  simp

/-- Witness for C5: two `v=spf1` TXT answers. -/
theorem multiple_spf_first_used_witness :
    (checkSpf (initResults "example.com")
        (Except.ok ["\"v=spf1 a\"", "\"v=spf1 b\""])).spf = some "v=spf1 a"
    ∧ (checkSpf (initResults "example.com")
        (Except.ok ["\"v=spf1 a\"", "\"v=spf1 b\""])).issues
      = [] ++ [multipleSpfMsg] ++ spfIncludeIssue "v=spf1 a" ++ spfAllIssue "v=spf1 a"
    ∧ ([multipleSpfMsg] ++ spfIncludeIssue "v=spf1 a"
        ++ spfAllIssue "v=spf1 a").count multipleSpfMsg = 1 :=
  multiple_spf_first_used (initResults "example.com") ["\"v=spf1 a\"", "\"v=spf1 b\""]
    "v=spf1 a" ["v=spf1 b"] (by decide) (by decide)

/-- C6: recommendation and command generation is a pure, deterministic
function of the assessment state — identical `AssessmentResult` inputs
produce identical recommendation and command lists. -/
theorem recommendation_generation_deterministic (st₁ st₂ : DnsResults)
    (h : st₁ = st₂) :
    generateCommands st₁ = generateCommands st₂
    ∧ (generateCommands st₁).bind9 = (generateCommands st₂).bind9
    ∧ (generateCommands st₁).powershell = (generateCommands st₂).powershell
    ∧ (generateCommands st₁).azureCli = (generateCommands st₂).azureCli
    ∧ (recommendSpfRecord st₁).recSpf = (recommendSpfRecord st₂).recSpf
    ∧ (recommendDkimRecords st₁).recDkim = (recommendDkimRecords st₂).recDkim
    ∧ (recommendDmarcRecord st₁).recDmarc = (recommendDmarcRecord st₂).recDmarc := by
  subst h
  exact ⟨rfl, rfl, rfl, rfl, rfl, rfl, rfl⟩

/-- Witness for C6 at a concrete assessment state. -/
theorem recommendation_generation_deterministic_witness :
    generateCommands (initResults "example.com")
        = generateCommands (initResults "example.com")
    ∧ (generateCommands (initResults "example.com")).bind9
        = (generateCommands (initResults "example.com")).bind9
    ∧ (generateCommands (initResults "example.com")).powershell
        = (generateCommands (initResults "example.com")).powershell
    ∧ (generateCommands (initResults "example.com")).azureCli
        = (generateCommands (initResults "example.com")).azureCli
    ∧ (recommendSpfRecord (initResults "example.com")).recSpf
        = (recommendSpfRecord (initResults "example.com")).recSpf
    ∧ (recommendDkimRecords (initResults "example.com")).recDkim
        = (recommendDkimRecords (initResults "example.com")).recDkim
    ∧ (recommendDmarcRecord (initResults "example.com")).recDmarc
        = (recommendDmarcRecord (initResults "example.com")).recDmarc :=
  recommendation_generation_deterministic (initResults "example.com")
    (initResults "example.com") rfl

/-! ## Claim theorems: serialized result shape -/

/-- Counterexample to C8 as stated: the header pipeline's serialized
result has no `commands` key. -/
theorem serialized_keys_counterexample : "commands" ∉ headerResultsKeys := by
  decide

/-- C8 (amended): the header pipeline's top-level keys are `timestamp`,
`authentication`, `headers`, `issues`, `recommendations` (no `commands`
key); the DNS pipeline's are `domain`, `timestamp`, `records`, `issues`,
`recommendations`, `commands` (with an extra `domain` key).  Only the
DNS pipeline's serialized result contains a `commands` key. -/
theorem serialized_keys_shapes :
    headerResultsKeys
        = ["timestamp", "authentication", "headers", "issues", "recommendations"]
    ∧ dnsResultsKeys
        = ["domain", "timestamp", "records", "issues", "recommendations", "commands"]
    ∧ "commands" ∈ dnsResultsKeys
    ∧ "commands" ∉ headerResultsKeys
    ∧ "domain" ∈ dnsResultsKeys
    ∧ "domain" ∉ headerResultsKeys :=
  ⟨rfl, rfl, by decide, by decide, by decide, by decide⟩

end EmailAuthFix
